import Mathlib

/-
Formal model of the Fiasini pricing application (src/app.py).

The program consists of two pure functions:
  - scan_inputs_from_sheet : scans a 2D spreadsheet grid for adjacent
    (label, value) cell pairs and builds a map of default field values;
  - calcular_precos : computes a manufacturing unit cost and two
    gross-up sale prices together with a per-component breakdown.

Python floats are modelled by exact rationals (ℚ); Python exceptions by
Except String; pandas cells by the inductive type Cell (text, number, NA).
Python builtins used by the source (str.lower, str.strip, str.replace,
float(), the substring test) are modelled by executable Lean functions
defined below, faithful to their behaviour on the inputs this program
feeds them (finite decimal literals; ASCII plus Portuguese accented
letters for case folding).
-/

namespace Fiasini

/-- A spreadsheet cell as seen by the scanner: a text cell, a numeric
cell, or an empty/missing cell (pandas NaN). -/
inductive Cell where
  | str (s : String)
  | num (q : ℚ)
  | na
deriving DecidableEq

/-- Case folding for one character, modelling Python str.lower on the
characters this program can meet: ASCII letters plus the Portuguese
accented letters used by the label keywords. -/
def pyLower (c : Char) : Char :=
  if c = 'Á' then 'á' else
  if c = 'À' then 'à' else
  if c = 'Â' then 'â' else
  if c = 'Ã' then 'ã' else
  if c = 'É' then 'é' else
  if c = 'Ê' then 'ê' else
  if c = 'Í' then 'í' else
  if c = 'Ó' then 'ó' else
  if c = 'Ô' then 'ô' else
  if c = 'Õ' then 'õ' else
  if c = 'Ú' then 'ú' else
  if c = 'Ü' then 'ü' else
  if c = 'Ç' then 'ç' else
  c.toLower

/-- Python str.strip(): drop whitespace from both ends. -/
def pyStrip (l : List Char) : List Char :=
  ((l.dropWhile Char.isWhitespace).reverse.dropWhile Char.isWhitespace).reverse

/-- Python str.replace(pat, rep), with an explicit structural fuel:
replace every non-overlapping occurrence of pat, scanning left to
right.  Every step consumes at least one character, so any fuel of at
least the input length gives the replace semantics; the fuel exists
only to make the recursion structural. -/
def listReplaceFuel (pat rep : List Char) : Nat → List Char → List Char
  | _, [] => []
  | 0, l => l
  | fuel + 1, c :: rest =>
    if pat ≠ [] ∧ pat.isPrefixOf (c :: rest) then
      rep ++ listReplaceFuel pat rep fuel (List.drop (pat.length - 1) rest)
    else
      c :: listReplaceFuel pat rep fuel rest

/-- Python str.replace(pat, rep).  (Python never calls it with an empty
pattern in this program; on an empty pattern this model is the
identity.) -/
def listReplace (pat rep l : List Char) : List Char :=
  listReplaceFuel pat rep l.length l

/-- Whether pat occurs as a contiguous run inside l. -/
def listIsInfix (pat : List Char) : List Char → Bool
  | [] => pat.isEmpty
  | c :: rest => pat.isPrefixOf (c :: rest) || listIsInfix pat rest

/-- Python substring test: pat in l. -/
def hasSub (l pat : String) : Bool :=
  listIsInfix pat.data l.data

/-- The helper _norm of app.py: for a string cell,
s.strip().lower().replace two times.  (Non-string cells are
handled at the call site: the scanner skips them.) -/
def _norm (s : String) : String :=
  String.mk (listReplace ("  ".data) (" ".data)
    (listReplace ("*".data) [] ((pyStrip s.data).map pyLower)))

/-- Digits of a decimal literal to a natural number. -/
def digitsToNat (l : List Char) : Nat :=
  l.foldl (fun n c => 10 * n + (c.toNat - 48)) 0

/-- Exponent part of a float literal (after the letter e/E):
optional sign, then at least one digit and nothing else. -/
def pyExp (mant : ℚ) (r : List Char) : Option ℚ :=
  let (esign, r1) :=
    match r with
    | '+' :: r2 => ((1 : ℤ), r2)
    | '-' :: r2 => ((-1 : ℤ), r2)
    | _ => ((1 : ℤ), r)
  let ed := r1.takeWhile Char.isDigit
  let r2 := r1.dropWhile Char.isDigit
  if ed.isEmpty || !r2.isEmpty then none
  else some (mant * (10 : ℚ) ^ (esign * (digitsToNat ed : ℤ)))

/-- Python float(s) on a finite decimal literal: optional sign, digits
with an optional decimal point (at least one digit overall), optional
exponent.  Returns none when the string is not such a literal
(infinities, NaN spellings and digit-group underscores are not
modelled; the program never produces them).  The input is already
stripped by the caller. -/
def pyFloat? (s : String) : Option ℚ :=
  let (sign, cs) :=
    match s.data with
    | '+' :: r => ((1 : ℚ), r)
    | '-' :: r => ((-1 : ℚ), r)
    | _ => ((1 : ℚ), s.data)
  let ip := cs.takeWhile Char.isDigit
  let cs1 := cs.dropWhile Char.isDigit
  let (fp, cs2) :=
    match cs1 with
    | '.' :: r => (r.takeWhile Char.isDigit, r.dropWhile Char.isDigit)
    | _ => (([] : List Char), cs1)
  if ip.isEmpty && fp.isEmpty then none
  else
    let mant : ℚ := sign * (digitsToNat (ip ++ fp) : ℚ) / (10 : ℚ) ^ fp.length
    match cs2 with
    | [] => some mant
    | 'e' :: r => pyExp mant r
    | 'E' :: r => pyExp mant r
    | _ => none

/-- The normalisation try_float applies to a string before parsing:
x.replace two times (remove percent signs, comma to period) and strip. -/
def pyNormNum (s : String) : String :=
  String.mk (pyStrip (listReplace (",".data) (".".data)
    (listReplace ("%".data) [] s.data)))

/-- try_float of app.py: NA gives the default, a number is returned
as-is (float of a float), a string is normalised and parsed, any parse
failure gives the default.  The Python default parameter (0.0) is an
explicit argument here; the scanner passes 0. -/
def try_float (x : Cell) (d : ℚ) : ℚ :=
  match x with
  | .na => d
  | .num q => q
  | .str s =>
    match pyFloat? (pyNormNum s) with
    | some q => q
    | none => d

/-- str(val) if pd.notna(val) else two quotes, used for the produto
field.  (Python float formatting is abstracted by Rat.toString; the
claims never inspect this string.) -/
def cellAsStr (c : Cell) : String :=
  match c with
  | .na => ""
  | .str s => s
  | .num q => toString q

/-- The dictionary built by scan_inputs_from_sheet: one optional entry
per known field key; none means the key is absent. -/
structure DefaultsMap where
  produto : Option String
  mpd : Option ℚ
  cif_hora : Option ℚ
  mod_hora : Option ℚ
  tempo_min : Option ℚ
  impostos_pct : Option ℚ
  comissao_pct : Option ℚ
  despesas_var_pct : Option ℚ
  margem_pct : Option ℚ
  taxa_efetiva_pct : Option ℚ
deriving DecidableEq

/-- The empty dictionary the scan starts from. -/
def emptyDefaults : DefaultsMap :=
  ⟨none, none, none, none, none, none, none, none, none, none⟩

/-- Label predicate for produto. -/
def matchProduto (l : String) : Bool :=
  hasSub l ("nome do produto")

/-- Label predicate for mpd. -/
def matchMpd (l : String) : Bool :=
  hasSub l ("matéria prima") || hasSub l ("materia prima") || hasSub l ("mpd")

/-- Label predicate for cif_hora. -/
def matchCifHora (l : String) : Bool :=
  hasSub l ("cif") && hasSub l ("hora")

/-- Label predicate for mod_hora. -/
def matchModHora (l : String) : Bool :=
  (hasSub l ("mod") && hasSub l ("hora")) || (hasSub l ("mão de obra") && hasSub l ("hora"))

/-- Label predicate for tempo_min. -/
def matchTempoMin (l : String) : Bool :=
  hasSub l ("tempo") && (hasSub l ("fabrica") || hasSub l ("fabricação") || hasSub l ("produc"))
    && (hasSub l ("min") || hasSub l ("minuto"))

/-- Label predicate for impostos_pct. -/
def matchImpostos (l : String) : Bool :=
  hasSub l ("imposto") || hasSub l ("impostos") || hasSub l ("icms") || hasSub l ("pis")
    || hasSub l ("cofins") || hasSub l ("iss")

/-- Label predicate for comissao_pct. -/
def matchComissao (l : String) : Bool :=
  hasSub l ("comissão") || hasSub l ("comissao")

/-- Label predicate for despesas_var_pct. -/
def matchDespesasVar (l : String) : Bool :=
  hasSub l ("despesa") && (hasSub l ("variável") || hasSub l ("variavel"))

/-- Label predicate for margem_pct. -/
def matchMargem (l : String) : Bool :=
  hasSub l ("margem")

/-- Label predicate for taxa_efetiva_pct. -/
def matchTaxaEfetiva (l : String) : Bool :=
  hasSub l ("taxa efetiva") || hasSub l ("antecipação") || hasSub l ("antecipacao")

/-- One (label, value) pair applied to the running dictionary: the body
of the inner scan loop of scan_inputs_from_sheet, after the label has
been normalised.  Every independent if of the source assigns one
distinct key, so the sequential ifs are rendered field by field;
impostos_pct uses setdefault (assign only if still absent), all other
keys are plain assignments. -/
def applyLabel (d : DefaultsMap) (label : String) (val : Cell) : DefaultsMap :=
  { produto := if matchProduto label then some (cellAsStr val) else d.produto
    mpd := if matchMpd label then some (try_float val 0) else d.mpd
    cif_hora := if matchCifHora label then some (try_float val 0) else d.cif_hora
    mod_hora := if matchModHora label then some (try_float val 0) else d.mod_hora
    tempo_min := if matchTempoMin label then some (try_float val 0) else d.tempo_min
    impostos_pct := if matchImpostos label
      then some ((d.impostos_pct).getD (try_float val 0)) else d.impostos_pct
    comissao_pct := if matchComissao label then some (try_float val 0) else d.comissao_pct
    despesas_var_pct := if matchDespesasVar label
      then some (try_float val 0) else d.despesas_var_pct
    margem_pct := if matchMargem label then some (try_float val 0) else d.margem_pct
    taxa_efetiva_pct := if matchTaxaEfetiva label
      then some (try_float val 0) else d.taxa_efetiva_pct }

/-- One step of the scan: label = _norm(row[c]); if the label cell is
not a string it is skipped, otherwise the predicates are applied. -/
def scanStep (d : DefaultsMap) (p : Cell × Cell) : DefaultsMap :=
  match p with
  | (.str s, val) => applyLabel d (_norm s) val
  | _ => d

/-- The adjacent column pairs of one row, left to right:
(row[c], row[c+1]) for c in range(len(row)-1). -/
def adjPairs : List Cell → List (Cell × Cell)
  | a :: b :: rest => (a, b) :: adjPairs (b :: rest)
  | _ => []

/-- scan_inputs_from_sheet of app.py: scan rows top to bottom, and
within each row the adjacent column pairs left to right, threading the
dictionary of defaults.  (The source's early return on an empty frame
coincides with folding over no rows.) -/
def scan_inputs_from_sheet (df : List (List Cell)) : DefaultsMap :=
  df.foldl (fun d row => (adjPairs row).foldl scanStep d) emptyDefaults

/-- All (label, value) pairs of a sheet in scan order. -/
def pairsOf (df : List (List Cell)) : List (Cell × Cell) :=
  df.flatMap adjPairs

/-- Whether a pair fires a given label predicate: its left cell is a
string whose normalisation satisfies the predicate. -/
def pairMatches (m : String → Bool) (p : Cell × Cell) : Bool :=
  match p.1 with
  | .str s => m (_norm s)
  | _ => false

/-- First-some choice on options (dict value survival under a fold). -/
def optOr {α : Type} (a b : Option α) : Option α :=
  match a with
  | some x => some x
  | none => b

/-- One row of the breakdown table: component name, value in currency,
percentage of the final sale price. -/
structure BreakdownRow where
  componente : String
  valor : ℚ
  pct_pv : ℚ
deriving DecidableEq

/-- The result dictionary of calcular_precos. -/
structure PricingResult where
  custo_fabricacao : ℚ
  pv_base_sem_efetiva : ℚ
  pv_final : ℚ
  breakdown : List BreakdownRow
deriving DecidableEq

/-- custo_fabricacao_unit = mpd + (cif_hora + mod_hora) * (tempo_min/60)
(the "or 0" guards of the source are the identity on numeric
arguments). -/
def custo_fabricacao_unit (mpd cif_hora mod_hora tempo_min : ℚ) : ℚ :=
  mpd + (cif_hora + mod_hora) * (tempo_min / 60)

/-- soma_rates = the four percentage arguments each divided by 100,
summed. -/
def soma_rates_of (impostos comissao despesas_var margem : ℚ) : ℚ :=
  impostos / 100 + comissao / 100 + despesas_var / 100 + margem / 100

/-- PV_base = custo_fabricacao_unit / (1 - soma_rates). -/
def pv_base_of (mpd cif_hora mod_hora tempo_min impostos comissao despesas_var margem : ℚ) : ℚ :=
  custo_fabricacao_unit mpd cif_hora mod_hora tempo_min
    / (1 - soma_rates_of impostos comissao despesas_var margem)

/-- PV_final = PV_base / (1 - taxa_efetiva/100). -/
def pv_final_of (mpd cif_hora mod_hora tempo_min impostos comissao despesas_var margem
    taxa_efetiva : ℚ) : ℚ :=
  pv_base_of mpd cif_hora mod_hora tempo_min impostos comissao despesas_var margem
    / (1 - taxa_efetiva / 100)

/-- The successful result of calcular_precos: prices and the six-row
breakdown (component value = PV_final times the component fraction; the
manufacturing cost row reports custo_fab as-is; the percentage column
is value / PV_final * 100, as computed on the whole column). -/
def resultOf (mpd cif_hora mod_hora tempo_min impostos comissao despesas_var margem
    taxa_efetiva : ℚ) : PricingResult :=
  let custo_fab := custo_fabricacao_unit mpd cif_hora mod_hora tempo_min
  let pv_base := pv_base_of mpd cif_hora mod_hora tempo_min impostos comissao despesas_var margem
  let pv_final := pv_final_of mpd cif_hora mod_hora tempo_min impostos comissao despesas_var
    margem taxa_efetiva
  let impostos_val := pv_final * (impostos / 100)
  let comissao_val := pv_final * (comissao / 100)
  let dv_val := pv_final * (despesas_var / 100)
  let margem_val := pv_final * (margem / 100)
  let efetiva_val := pv_final * (taxa_efetiva / 100)
  { custo_fabricacao := custo_fab
    pv_base_sem_efetiva := pv_base
    pv_final := pv_final
    breakdown := [
      ⟨"Custo Fabricação", custo_fab, custo_fab / pv_final * 100⟩,
      ⟨"Impostos", impostos_val, impostos_val / pv_final * 100⟩,
      ⟨"Comissão", comissao_val, comissao_val / pv_final * 100⟩,
      ⟨"Despesas Variáveis", dv_val, dv_val / pv_final * 100⟩,
      ⟨"Margem", margem_val, margem_val / pv_final * 100⟩,
      ⟨"Taxa Efetiva", efetiva_val, efetiva_val / pv_final * 100⟩] }

/-- calcular_precos of app.py: raise if the four-rate sum reaches 100
percent, else raise if the effective rate reaches 100 percent, else
return the prices and breakdown. -/
def calcular_precos (mpd cif_hora mod_hora tempo_min impostos comissao despesas_var margem
    taxa_efetiva : ℚ) : Except String PricingResult :=
  if soma_rates_of impostos comissao despesas_var margem ≥ 1 then
    Except.error ("A soma das alíquotas sobre PV é >= 100%. Ajuste os percentuais.")
  else if taxa_efetiva / 100 ≥ 1 then
    Except.error ("A taxa efetiva é >= 100%. Ajuste o percentual.")
  else
    Except.ok (resultOf mpd cif_hora mod_hora tempo_min impostos comissao despesas_var margem
      taxa_efetiva)

/-- Whether a computation raised. -/
def isErr {ε α : Type} : Except ε α → Bool
  | .error _ => true
  | .ok _ => false

/-- Elimination of a successful call: both guards were below 1 and the
result is the one built by resultOf. -/
theorem calcular_precos_ok_elim (mpd cif_hora mod_hora tempo_min impostos comissao despesas_var
    margem taxa_efetiva : ℚ) (r : PricingResult)
    (h : calcular_precos mpd cif_hora mod_hora tempo_min impostos comissao despesas_var margem
      taxa_efetiva = Except.ok r) :
    soma_rates_of impostos comissao despesas_var margem < 1 ∧ taxa_efetiva / 100 < 1 ∧
      r = resultOf mpd cif_hora mod_hora tempo_min impostos comissao despesas_var margem
        taxa_efetiva := by
  unfold calcular_precos at h
  split_ifs at h with hs he
  all_goals first
  | exact Except.noConfusion h
  | (injection h with h2
     exact ⟨not_le.mp hs, not_le.mp he, h2.symm⟩)

/-- The exact result of calcular_precos on the worked example of the
spec: mpd=100, cif_hora=20, mod_hora=10, tempo_min=60 and rates
10, 5, 5, 10, 3. -/
def R8 : PricingResult :=
  ⟨130, 1300 / 7, 130000 / 679,
    [⟨"Custo Fabricação", 130, 679 / 10⟩,
     ⟨"Impostos", 13000 / 679, 10⟩,
     ⟨"Comissão", 6500 / 679, 5⟩,
     ⟨"Despesas Variáveis", 6500 / 679, 5⟩,
     ⟨"Margem", 13000 / 679, 10⟩,
     ⟨"Taxa Efetiva", 3900 / 679, 3⟩]⟩

/-- Evaluation of the worked example. -/
theorem calc_R8 : calcular_precos 100 20 10 60 10 5 5 10 3 = Except.ok R8 := by
  unfold calcular_precos
  rw [if_neg (show ¬ soma_rates_of 10 5 5 10 ≥ 1 by unfold soma_rates_of; norm_num),
    if_neg (show ¬ (3 : ℚ) / 100 ≥ 1 by norm_num)]
  congr 1
  norm_num [resultOf, pv_final_of, pv_base_of, custo_fabricacao_unit, soma_rates_of, R8,
    PricingResult.mk.injEq, BreakdownRow.mk.injEq, List.cons.injEq]

/-- The exact result on input mpd=100, impostos=10 and every other
argument zero. -/
def R4 : PricingResult :=
  ⟨100, 1000 / 9, 1000 / 9,
    [⟨"Custo Fabricação", 100, 90⟩,
     ⟨"Impostos", 100 / 9, 10⟩,
     ⟨"Comissão", 0, 0⟩,
     ⟨"Despesas Variáveis", 0, 0⟩,
     ⟨"Margem", 0, 0⟩,
     ⟨"Taxa Efetiva", 0, 0⟩]⟩

/-- Evaluation of the one-positive-rate example. -/
theorem calc_R4 : calcular_precos 100 0 0 0 10 0 0 0 0 = Except.ok R4 := by
  unfold calcular_precos
  rw [if_neg (show ¬ soma_rates_of 10 0 0 0 ≥ 1 by unfold soma_rates_of; norm_num),
    if_neg (show ¬ (0 : ℚ) / 100 ≥ 1 by norm_num)]
  congr 1
  norm_num [resultOf, pv_final_of, pv_base_of, custo_fabricacao_unit, soma_rates_of, R4,
    PricingResult.mk.injEq, BreakdownRow.mk.injEq, List.cons.injEq]

/-- C1: whenever calcular_precos succeeds, the returned values satisfy
exactly custo_fabricacao = mpd + (cif_hora + mod_hora) * (tempo_min/60),
pv_base_sem_efetiva = custo_fabricacao / (1 - rate_sum) with rate_sum
the sum of the four rate arguments each divided by 100, and
pv_final = pv_base_sem_efetiva / (1 - taxa_efetiva/100). -/
theorem C1_calcular_precos_formulas (mpd cif_hora mod_hora tempo_min impostos comissao
    despesas_var margem taxa_efetiva : ℚ) (r : PricingResult)
    (h : calcular_precos mpd cif_hora mod_hora tempo_min impostos comissao despesas_var margem
      taxa_efetiva = Except.ok r) :
    r.custo_fabricacao = mpd + (cif_hora + mod_hora) * (tempo_min / 60) ∧
    r.pv_base_sem_efetiva = r.custo_fabricacao
      / (1 - (impostos / 100 + comissao / 100 + despesas_var / 100 + margem / 100)) ∧
    r.pv_final = r.pv_base_sem_efetiva / (1 - taxa_efetiva / 100) := by
  obtain ⟨-, -, rfl⟩ := calcular_precos_ok_elim _ _ _ _ _ _ _ _ _ _ h
  refine ⟨rfl, ?_, ?_⟩ <;>
    simp [resultOf, pv_final_of, pv_base_of, custo_fabricacao_unit, soma_rates_of]

/-- Witness for C1 at the worked example input. -/
theorem C1_witness :
    R8.custo_fabricacao = 100 + (20 + 10) * (60 / 60) ∧
    R8.pv_base_sem_efetiva = R8.custo_fabricacao
      / (1 - ((10 : ℚ) / 100 + 5 / 100 + 5 / 100 + 10 / 100)) ∧
    R8.pv_final = R8.pv_base_sem_efetiva / (1 - (3 : ℚ) / 100) :=
  C1_calcular_precos_formulas 100 20 10 60 10 5 5 10 3 R8 calc_R8

/-- C2: calcular_precos raises exactly when the four-rate sum reaches 1
or the effective fraction reaches 1 (so both boundaries raise, and
nothing is returned in that case since the result type carries either
an error or a full result); in particular the rates 50/30/15/10 of the
spec example raise for every choice of the other arguments. -/
theorem C2_overcap_iff (mpd cif_hora mod_hora tempo_min impostos comissao despesas_var margem
    taxa_efetiva : ℚ) :
    (isErr (calcular_precos mpd cif_hora mod_hora tempo_min impostos comissao despesas_var
        margem taxa_efetiva) = true ↔
      1 ≤ impostos / 100 + comissao / 100 + despesas_var / 100 + margem / 100 ∨
        1 ≤ taxa_efetiva / 100) ∧
    isErr (calcular_precos mpd cif_hora mod_hora tempo_min 50 30 15 10 taxa_efetiva) = true := by
  refine ⟨?_, ?_⟩
  · unfold calcular_precos
    split_ifs with hs he
    · simp only [soma_rates_of] at hs
      exact iff_of_true rfl (Or.inl hs)
    · exact iff_of_true rfl (Or.inr he)
    · simp only [soma_rates_of] at hs
      exact iff_of_false (by simp [isErr]) (by rw [not_or]; exact ⟨hs, he⟩)
  · unfold calcular_precos
    rw [if_pos (show soma_rates_of 50 30 15 10 ≥ 1 by unfold soma_rates_of; norm_num)]
    rfl

/-- C8 counterexample: on the worked example input the final price is
130000/679 = 191.4580265…, whose decimal expansion does not begin with
191.457 as the claim states (it is not below 191.458); likewise the tax
component is 13000/679 = 19.14580…, not 19.1457…. -/
theorem C8_counterexample :
    (calcular_precos 100 20 10 60 10 5 5 10 3).toOption.map PricingResult.pv_final =
      some (130000 / 679) ∧
    ¬ ((130000 : ℚ) / 679 < 191458 / 1000) ∧
    (calcular_precos 100 20 10 60 10 5 5 10 3).toOption.map
        (fun r => r.breakdown.map BreakdownRow.valor) =
      some [130, 13000 / 679, 6500 / 679, 6500 / 679, 13000 / 679, 3900 / 679] ∧
    ¬ ((13000 : ℚ) / 679 < 191458 / 10000) := by
  refine ⟨?_, by norm_num, ?_, by norm_num⟩
  · rw [calc_R8]
    rfl
  · rw [calc_R8]
    rfl

/-- C8 (amended): the worked example returns custo_fabricacao = 130,
rate_sum = 3/10, pv_base_sem_efetiva = 1300/7 = 185.714285…,
pv_final = 130000/679 = 191.458026… (not 191.457…), and a tax
component of 13000/679 = 19.1458026… (not 19.1457…). -/
theorem C8_amended_example :
    calcular_precos 100 20 10 60 10 5 5 10 3 = Except.ok R8 ∧
    soma_rates_of 10 5 5 10 = 3 / 10 ∧
    R8.custo_fabricacao = 130 ∧
    R8.pv_base_sem_efetiva = 1300 / 7 ∧
    R8.pv_final = 130000 / 679 ∧
    (185714285 : ℚ) / 1000000 ≤ R8.pv_base_sem_efetiva ∧
    R8.pv_base_sem_efetiva < (185714286 : ℚ) / 1000000 ∧
    (191458026 : ℚ) / 1000000 ≤ R8.pv_final ∧
    R8.pv_final < (191458027 : ℚ) / 1000000 ∧
    R8.breakdown.map BreakdownRow.valor =
      [130, 13000 / 679, 6500 / 679, 6500 / 679, 13000 / 679, 3900 / 679] ∧
    (191458026 : ℚ) / 10000000 ≤ (13000 : ℚ) / 679 ∧
    (13000 : ℚ) / 679 < (191458027 : ℚ) / 10000000 :=
  ⟨calc_R8, by norm_num [soma_rates_of], rfl, rfl, rfl, by norm_num [R8], by norm_num [R8],
    by norm_num [R8], by norm_num [R8], rfl, by norm_num, by norm_num⟩

/-- C3 counterexample: on the worked example the six component values
sum to 131170/679 while the final price is 130000/679; the difference
1170/679 is far beyond a 1e-9 relative tolerance. -/
theorem C3_counterexample :
    (calcular_precos 100 20 10 60 10 5 5 10 3).toOption.map
        (fun r => ((r.breakdown.map BreakdownRow.valor).sum, r.pv_final)) =
      some (131170 / 679, 130000 / 679) ∧
    (131170 : ℚ) / 679 ≠ 130000 / 679 ∧
    (131170 : ℚ) / 679 - 130000 / 679 > 1 / 1000000000 * (130000 / 679) := by
  refine ⟨?_, by norm_num, by norm_num⟩
  rw [calc_R8]
  have hsum : (R8.breakdown.map BreakdownRow.valor).sum = (131170 : ℚ) / 679 := by
    norm_num [R8, List.sum_cons, List.sum_nil]
  show some ((R8.breakdown.map BreakdownRow.valor).sum, R8.pv_final) =
    some ((131170 : ℚ) / 679, (130000 : ℚ) / 679)
  rw [hsum]
  rfl

/-- Algebraic identity behind the breakdown sum: with C0 the
manufacturing cost and a, b, c, d, e the five rate fractions, the six
component values sum to the final price times (1 + (a+b+c+d)*e). -/
theorem breakdown_sum_identity (C0 a b c d e : ℚ) (h1 : 1 - (a + b + c + d) ≠ 0)
    (h2 : 1 - e ≠ 0) :
    C0 + (C0 / (1 - (a + b + c + d)) / (1 - e) * a + (C0 / (1 - (a + b + c + d)) / (1 - e) * b +
      (C0 / (1 - (a + b + c + d)) / (1 - e) * c + (C0 / (1 - (a + b + c + d)) / (1 - e) * d +
        (C0 / (1 - (a + b + c + d)) / (1 - e) * e + 0))))) =
    C0 / (1 - (a + b + c + d)) / (1 - e) * (1 + (a + b + c + d) * e) := by
  field_simp
  ring

/-- C3 (amended): the six component values sum to
pv_final * (1 + rate_sum * effective_fraction), which equals pv_final
exactly precisely in the degenerate cases, namely whenever the four
rates sum to zero or the effective rate is zero. -/
theorem C3_amended_breakdown_sum (mpd cif_hora mod_hora tempo_min impostos comissao despesas_var
    margem taxa_efetiva : ℚ) (r : PricingResult)
    (h : calcular_precos mpd cif_hora mod_hora tempo_min impostos comissao despesas_var margem
      taxa_efetiva = Except.ok r) :
    (r.breakdown.map BreakdownRow.valor).sum =
      r.pv_final * (1 + soma_rates_of impostos comissao despesas_var margem
        * (taxa_efetiva / 100)) ∧
    (impostos + comissao + despesas_var + margem = 0 ∨ taxa_efetiva = 0 →
      (r.breakdown.map BreakdownRow.valor).sum = r.pv_final) := by
  obtain ⟨hs, he, rfl⟩ := calcular_precos_ok_elim _ _ _ _ _ _ _ _ _ _ h
  simp only [soma_rates_of] at hs
  have h1 : (1 : ℚ) - (impostos / 100 + comissao / 100 + despesas_var / 100 + margem / 100)
      ≠ 0 := by
    have : (0 : ℚ) < 1 - (impostos / 100 + comissao / 100 + despesas_var / 100 + margem / 100) :=
      by linarith
    exact ne_of_gt this
  have h2 : (1 : ℚ) - taxa_efetiva / 100 ≠ 0 := by
    have : (0 : ℚ) < 1 - taxa_efetiva / 100 := by linarith
    exact ne_of_gt this
  have key : ((resultOf mpd cif_hora mod_hora tempo_min impostos comissao despesas_var margem
        taxa_efetiva).breakdown.map BreakdownRow.valor).sum =
      (resultOf mpd cif_hora mod_hora tempo_min impostos comissao despesas_var margem
        taxa_efetiva).pv_final *
        (1 + soma_rates_of impostos comissao despesas_var margem * (taxa_efetiva / 100)) := by
    simp only [resultOf, pv_final_of, pv_base_of, custo_fabricacao_unit, soma_rates_of,
      List.map_cons, List.map_nil, List.sum_cons, List.sum_nil]
    exact breakdown_sum_identity (mpd + (cif_hora + mod_hora) * (tempo_min / 60))
      (impostos / 100) (comissao / 100) (despesas_var / 100) (margem / 100)
      (taxa_efetiva / 100) h1 h2
  refine ⟨key, fun hz => ?_⟩
  rw [key]
  rcases hz with hz | hz
  · have hs0 : soma_rates_of impostos comissao despesas_var margem = 0 := by
      simp only [soma_rates_of]
      linarith
    rw [hs0]
    ring
  · rw [hz]
    ring

/-- Witness for the amended C3 at the worked example input. -/
theorem C3_witness :
    (R8.breakdown.map BreakdownRow.valor).sum =
      R8.pv_final * (1 + soma_rates_of 10 5 5 10 * ((3 : ℚ) / 100)) ∧
    ((10 : ℚ) + 5 + 5 + 10 = 0 ∨ (3 : ℚ) = 0 →
      (R8.breakdown.map BreakdownRow.valor).sum = R8.pv_final) :=
  C3_amended_breakdown_sum 100 20 10 60 10 5 5 10 3 R8 calc_R8

/-- C4 counterexample: the input mpd=100, impostos=10 and every other
argument zero is non-negative, has rate_sum 1/10 < 1 and effective
fraction 0 < 1, and one of the five rates is positive, yet pv_final
equals pv_base_sem_efetiva, so the claimed strict chain fails. -/
theorem C4_counterexample :
    calcular_precos 100 0 0 0 10 0 0 0 0 = Except.ok R4 ∧
    soma_rates_of 10 0 0 0 < 1 ∧ (0 : ℚ) / 100 < 1 ∧ 0 < (10 : ℚ) ∧
    ¬ (R4.pv_base_sem_efetiva < R4.pv_final) :=
  ⟨calc_R4, by norm_num [soma_rates_of], by norm_num, by norm_num, by norm_num [R4]⟩

/-- C4 (amended): for non-negative inputs on which calcular_precos
succeeds, custo ≤ pv_base ≤ pv_final always; when the manufacturing
cost is positive, pv_base exceeds custo exactly when one of the four
gross-up rates is positive, and pv_final exceeds pv_base exactly when
the effective rate is positive; all three coincide when all five rates
are zero. -/
theorem C4_amended_monotonicity (mpd cif_hora mod_hora tempo_min impostos comissao despesas_var
    margem taxa_efetiva : ℚ) (r : PricingResult)
    (hm : 0 ≤ mpd) (hc : 0 ≤ cif_hora) (hh : 0 ≤ mod_hora) (ht : 0 ≤ tempo_min)
    (hi : 0 ≤ impostos) (hco : 0 ≤ comissao) (hd : 0 ≤ despesas_var) (hmg : 0 ≤ margem)
    (hte : 0 ≤ taxa_efetiva)
    (h : calcular_precos mpd cif_hora mod_hora tempo_min impostos comissao despesas_var margem
      taxa_efetiva = Except.ok r) :
    r.custo_fabricacao ≤ r.pv_base_sem_efetiva ∧
    r.pv_base_sem_efetiva ≤ r.pv_final ∧
    (0 < r.custo_fabricacao →
      ((r.custo_fabricacao < r.pv_base_sem_efetiva ↔
          0 < impostos + comissao + despesas_var + margem) ∧
        (r.pv_base_sem_efetiva < r.pv_final ↔ 0 < taxa_efetiva))) ∧
    (impostos = 0 ∧ comissao = 0 ∧ despesas_var = 0 ∧ margem = 0 ∧ taxa_efetiva = 0 →
      r.pv_final = r.custo_fabricacao ∧ r.pv_base_sem_efetiva = r.custo_fabricacao) := by
  obtain ⟨hs, he, rfl⟩ := calcular_precos_ok_elim _ _ _ _ _ _ _ _ _ _ h
  have e1 : (resultOf mpd cif_hora mod_hora tempo_min impostos comissao despesas_var margem
      taxa_efetiva).custo_fabricacao = custo_fabricacao_unit mpd cif_hora mod_hora tempo_min :=
    rfl
  have e2 : (resultOf mpd cif_hora mod_hora tempo_min impostos comissao despesas_var margem
        taxa_efetiva).pv_base_sem_efetiva =
      pv_base_of mpd cif_hora mod_hora tempo_min impostos comissao despesas_var margem := rfl
  have e3 : (resultOf mpd cif_hora mod_hora tempo_min impostos comissao despesas_var margem
        taxa_efetiva).pv_final =
      pv_final_of mpd cif_hora mod_hora tempo_min impostos comissao despesas_var margem
        taxa_efetiva := rfl
  rw [e1, e2, e3]
  have hC : 0 ≤ custo_fabricacao_unit mpd cif_hora mod_hora tempo_min := by
    unfold custo_fabricacao_unit
    have hprod : 0 ≤ (cif_hora + mod_hora) * (tempo_min / 60) :=
      mul_nonneg (by linarith) (div_nonneg ht (by norm_num))
    linarith
  have hSnn : 0 ≤ soma_rates_of impostos comissao despesas_var margem := by
    unfold soma_rates_of
    linarith
  have hEnn : (0 : ℚ) ≤ taxa_efetiva / 100 := by linarith
  have h1S : (0 : ℚ) < 1 - soma_rates_of impostos comissao despesas_var margem := by linarith
  have h1E : (0 : ℚ) < 1 - taxa_efetiva / 100 := by linarith
  have eqB : pv_base_of mpd cif_hora mod_hora tempo_min impostos comissao despesas_var margem *
      (1 - soma_rates_of impostos comissao despesas_var margem) =
      custo_fabricacao_unit mpd cif_hora mod_hora tempo_min := by
    unfold pv_base_of
    exact div_mul_cancel₀ _ (ne_of_gt h1S)
  have eqF : pv_final_of mpd cif_hora mod_hora tempo_min impostos comissao despesas_var margem
      taxa_efetiva * (1 - taxa_efetiva / 100) =
      pv_base_of mpd cif_hora mod_hora tempo_min impostos comissao despesas_var margem := by
    unfold pv_final_of
    exact div_mul_cancel₀ _ (ne_of_gt h1E)
  have hB : 0 ≤ pv_base_of mpd cif_hora mod_hora tempo_min impostos comissao despesas_var
      margem := by
    unfold pv_base_of
    exact div_nonneg hC (le_of_lt h1S)
  have hF : 0 ≤ pv_final_of mpd cif_hora mod_hora tempo_min impostos comissao despesas_var
      margem taxa_efetiva := by
    unfold pv_final_of
    exact div_nonneg hB (le_of_lt h1E)
  refine ⟨?_, ?_, ?_, ?_⟩
  · nlinarith [eqB, mul_nonneg hB hSnn]
  · nlinarith [eqF, mul_nonneg hF hEnn]
  · intro hCpos
    have hBpos : 0 < pv_base_of mpd cif_hora mod_hora tempo_min impostos comissao despesas_var
        margem := by
      unfold pv_base_of
      exact div_pos hCpos h1S
    have hFpos : 0 < pv_final_of mpd cif_hora mod_hora tempo_min impostos comissao despesas_var
        margem taxa_efetiva := by
      unfold pv_final_of
      exact div_pos hBpos h1E
    refine ⟨⟨?_, ?_⟩, ?_, ?_⟩
    · intro hlt
      by_contra hns
      push_neg at hns
      have hsum0 : impostos + comissao + despesas_var + margem = 0 :=
        le_antisymm hns (by linarith)
      have hS0 : soma_rates_of impostos comissao despesas_var margem = 0 := by
        have hrw : soma_rates_of impostos comissao despesas_var margem =
            (impostos + comissao + despesas_var + margem) / 100 := by
          unfold soma_rates_of
          ring
        rw [hrw, hsum0]
        norm_num
      rw [hS0] at eqB
      norm_num at eqB
      linarith
    · intro hpos
      have hSpos : 0 < soma_rates_of impostos comissao despesas_var margem := by
        have hrw : soma_rates_of impostos comissao despesas_var margem =
            (impostos + comissao + despesas_var + margem) / 100 := by
          unfold soma_rates_of
          ring
        rw [hrw]
        exact div_pos hpos (by norm_num)
      nlinarith [eqB, mul_pos hBpos hSpos]
    · intro hlt
      by_contra hns
      push_neg at hns
      have hte0 : taxa_efetiva = 0 := le_antisymm hns hte
      subst hte0
      norm_num at eqF
      linarith
    · intro hpos
      have hEpos : (0 : ℚ) < taxa_efetiva / 100 := div_pos hpos (by norm_num)
      nlinarith [eqF, mul_pos hFpos hEpos]
  · rintro ⟨z1, z2, z3, z4, z5⟩
    subst z1 z2 z3 z4 z5
    constructor
    · unfold pv_final_of pv_base_of soma_rates_of
      norm_num
    · unfold pv_base_of soma_rates_of
      norm_num

/-- Witness for the amended C4 at the worked example input. -/
theorem C4_witness :
    R8.custo_fabricacao ≤ R8.pv_base_sem_efetiva ∧
    R8.pv_base_sem_efetiva ≤ R8.pv_final ∧
    (0 < R8.custo_fabricacao →
      ((R8.custo_fabricacao < R8.pv_base_sem_efetiva ↔ 0 < (10 : ℚ) + 5 + 5 + 10) ∧
        (R8.pv_base_sem_efetiva < R8.pv_final ↔ 0 < (3 : ℚ)))) ∧
    ((10 : ℚ) = 0 ∧ (5 : ℚ) = 0 ∧ (5 : ℚ) = 0 ∧ (10 : ℚ) = 0 ∧ (3 : ℚ) = 0 →
      R8.pv_final = R8.custo_fabricacao ∧ R8.pv_base_sem_efetiva = R8.custo_fabricacao) :=
  C4_amended_monotonicity 100 20 10 60 10 5 5 10 3 R8 (by norm_num) (by norm_num) (by norm_num)
    (by norm_num) (by norm_num) (by norm_num) (by norm_num) (by norm_num) (by norm_num) calc_R8

/-- C10: when calcular_precos succeeds with a positive final price, the
percent-of-price column of the breakdown is exactly
[100 * custo_fabricacao / pv_final, impostos, comissao, despesas_var,
margem, taxa_efetiva]: the five rate rows round-trip to the input
percentages. -/
theorem C10_pct_roundtrip (mpd cif_hora mod_hora tempo_min impostos comissao despesas_var
    margem taxa_efetiva : ℚ) (r : PricingResult)
    (h : calcular_precos mpd cif_hora mod_hora tempo_min impostos comissao despesas_var margem
      taxa_efetiva = Except.ok r)
    (hpv : 0 < r.pv_final) :
    r.breakdown.map BreakdownRow.pct_pv =
      [100 * r.custo_fabricacao / r.pv_final, impostos, comissao, despesas_var, margem,
        taxa_efetiva] := by
  obtain ⟨hs, he, rfl⟩ := calcular_precos_ok_elim _ _ _ _ _ _ _ _ _ _ h
  have hne : pv_final_of mpd cif_hora mod_hora tempo_min impostos comissao despesas_var margem
      taxa_efetiva ≠ 0 := ne_of_gt hpv
  simp only [resultOf, List.map_cons, List.map_nil, List.cons.injEq, and_true]
  refine ⟨by ring, ?_, ?_, ?_, ?_, ?_⟩ <;>
    (field_simp
     try ring)

/-- Witness for C10 at the worked example input. -/
theorem C10_witness :
    R8.breakdown.map BreakdownRow.pct_pv =
      [100 * R8.custo_fabricacao / R8.pv_final, 10, 5, 5, 10, 3] :=
  C10_pct_roundtrip 100 20 10 60 10 5 5 10 3 R8 calc_R8 (by norm_num [R8])

/-- First-some choice where the second option is none. -/
theorem optOr_none {α : Type} (a : Option α) : optOr a none = a := by
  cases a <;> rfl

/-- Projection of one scan step at the produto key. -/
theorem scanStep_produto (d : DefaultsMap) (p : Cell × Cell) :
    (scanStep d p).produto =
      if pairMatches matchProduto p then some (cellAsStr p.2) else d.produto := by
  rcases p with ⟨c, v⟩
  cases c <;> simp [scanStep, applyLabel, pairMatches]

/-- Projection of one scan step at the mpd key. -/
theorem scanStep_mpd (d : DefaultsMap) (p : Cell × Cell) :
    (scanStep d p).mpd =
      if pairMatches matchMpd p then some (try_float p.2 0) else d.mpd := by
  rcases p with ⟨c, v⟩
  cases c <;> simp [scanStep, applyLabel, pairMatches]

/-- Projection of one scan step at the cif_hora key. -/
theorem scanStep_cif_hora (d : DefaultsMap) (p : Cell × Cell) :
    (scanStep d p).cif_hora =
      if pairMatches matchCifHora p then some (try_float p.2 0) else d.cif_hora := by
  rcases p with ⟨c, v⟩
  cases c <;> simp [scanStep, applyLabel, pairMatches]

/-- Projection of one scan step at the mod_hora key. -/
theorem scanStep_mod_hora (d : DefaultsMap) (p : Cell × Cell) :
    (scanStep d p).mod_hora =
      if pairMatches matchModHora p then some (try_float p.2 0) else d.mod_hora := by
  rcases p with ⟨c, v⟩
  cases c <;> simp [scanStep, applyLabel, pairMatches]

/-- Projection of one scan step at the tempo_min key. -/
theorem scanStep_tempo_min (d : DefaultsMap) (p : Cell × Cell) :
    (scanStep d p).tempo_min =
      if pairMatches matchTempoMin p then some (try_float p.2 0) else d.tempo_min := by
  rcases p with ⟨c, v⟩
  cases c <;> simp [scanStep, applyLabel, pairMatches]

/-- Projection of one scan step at the impostos_pct key: setdefault,
the running value survives when present. -/
theorem scanStep_impostos (d : DefaultsMap) (p : Cell × Cell) :
    (scanStep d p).impostos_pct =
      if pairMatches matchImpostos p then some ((d.impostos_pct).getD (try_float p.2 0))
      else d.impostos_pct := by
  rcases p with ⟨c, v⟩
  cases c <;> simp [scanStep, applyLabel, pairMatches]

/-- Projection of one scan step at the comissao_pct key. -/
theorem scanStep_comissao (d : DefaultsMap) (p : Cell × Cell) :
    (scanStep d p).comissao_pct =
      if pairMatches matchComissao p then some (try_float p.2 0) else d.comissao_pct := by
  rcases p with ⟨c, v⟩
  cases c <;> simp [scanStep, applyLabel, pairMatches]

/-- Projection of one scan step at the despesas_var_pct key. -/
theorem scanStep_despesas_var (d : DefaultsMap) (p : Cell × Cell) :
    (scanStep d p).despesas_var_pct =
      if pairMatches matchDespesasVar p then some (try_float p.2 0)
      else d.despesas_var_pct := by
  rcases p with ⟨c, v⟩
  cases c <;> simp [scanStep, applyLabel, pairMatches]

/-- Projection of one scan step at the margem_pct key. -/
theorem scanStep_margem (d : DefaultsMap) (p : Cell × Cell) :
    (scanStep d p).margem_pct =
      if pairMatches matchMargem p then some (try_float p.2 0) else d.margem_pct := by
  rcases p with ⟨c, v⟩
  cases c <;> simp [scanStep, applyLabel, pairMatches]

/-- Projection of one scan step at the taxa_efetiva_pct key. -/
theorem scanStep_taxa_efetiva (d : DefaultsMap) (p : Cell × Cell) :
    (scanStep d p).taxa_efetiva_pct =
      if pairMatches matchTaxaEfetiva p then some (try_float p.2 0)
      else d.taxa_efetiva_pct := by
  rcases p with ⟨c, v⟩
  cases c <;> simp [scanStep, applyLabel, pairMatches]

/-- A key that is plainly assigned on every match ends the fold holding
the value of the last matching pair (or its initial value when nothing
matches). -/
theorem foldl_scanStep_assign {α : Type} (f : DefaultsMap → Option α)
    (m : Cell × Cell → Bool) (v : Cell × Cell → α)
    (hf : ∀ d p, f (scanStep d p) = if m p then some (v p) else f d)
    (l : List (Cell × Cell)) (d : DefaultsMap) :
    f (l.foldl scanStep d) = optOr (((l.filter m).getLast?).map v) (f d) := by
  induction l generalizing d with
  | nil => simp [optOr]
  | cons p t ih =>
    rw [List.foldl_cons, ih, hf]
    by_cases hm : m p
    · rw [if_pos hm, List.filter_cons_of_pos hm]
      cases hft : t.filter m with
      | nil => simp [optOr]
      | cons q u =>
        rw [List.getLast?_cons_cons]
        cases hlast : (q :: u).getLast? with
        | none =>
          rw [List.getLast?_eq_none_iff] at hlast
          exact List.noConfusion hlast
        | some x => simp [optOr]
    · rw [if_neg hm, List.filter_cons_of_neg hm]

/-- A key that is set only if still absent ends the fold holding its
initial value when that was present, and otherwise the value of the
first matching pair. -/
theorem foldl_scanStep_setdefault {α : Type} (f : DefaultsMap → Option α)
    (m : Cell × Cell → Bool) (v : Cell × Cell → α)
    (hf : ∀ d p, f (scanStep d p) = if m p then some ((f d).getD (v p)) else f d)
    (l : List (Cell × Cell)) (d : DefaultsMap) :
    f (l.foldl scanStep d) = optOr (f d) (((l.filter m).head?).map v) := by
  induction l generalizing d with
  | nil => cases hfd : f d <;> simp [optOr, hfd]
  | cons p t ih =>
    rw [List.foldl_cons, ih, hf]
    by_cases hm : m p
    · rw [if_pos hm, List.filter_cons_of_pos hm]
      cases hfd : f d with
      | none => simp [optOr, hfd]
      | some w => simp [optOr, hfd]
    · rw [if_neg hm, List.filter_cons_of_neg hm]

/-- The scan is the fold of the single-pair step over all pairs of the
sheet in scan order. -/
theorem scan_eq_foldl (df : List (List Cell)) :
    scan_inputs_from_sheet df = (pairsOf df).foldl scanStep emptyDefaults := by
  unfold scan_inputs_from_sheet pairsOf
  generalize emptyDefaults = d
  induction df generalizing d with
  | nil => rfl
  | cons row rest ih =>
    rw [List.foldl_cons, List.flatMap_cons, List.foldl_append, ih]

/-- Full characterisation of the scan result, key by key: impostos_pct
holds the first matching pair's coerced value, every other key the last
matching pair's value, and a key with no matching pair is absent. -/
theorem scan_spec (df : List (List Cell)) :
    (scan_inputs_from_sheet df).produto =
      (((pairsOf df).filter (pairMatches matchProduto)).getLast?).map
        (fun p => cellAsStr p.2) ∧
    (scan_inputs_from_sheet df).mpd =
      (((pairsOf df).filter (pairMatches matchMpd)).getLast?).map (fun p => try_float p.2 0) ∧
    (scan_inputs_from_sheet df).cif_hora =
      (((pairsOf df).filter (pairMatches matchCifHora)).getLast?).map
        (fun p => try_float p.2 0) ∧
    (scan_inputs_from_sheet df).mod_hora =
      (((pairsOf df).filter (pairMatches matchModHora)).getLast?).map
        (fun p => try_float p.2 0) ∧
    (scan_inputs_from_sheet df).tempo_min =
      (((pairsOf df).filter (pairMatches matchTempoMin)).getLast?).map
        (fun p => try_float p.2 0) ∧
    (scan_inputs_from_sheet df).impostos_pct =
      (((pairsOf df).filter (pairMatches matchImpostos)).head?).map
        (fun p => try_float p.2 0) ∧
    (scan_inputs_from_sheet df).comissao_pct =
      (((pairsOf df).filter (pairMatches matchComissao)).getLast?).map
        (fun p => try_float p.2 0) ∧
    (scan_inputs_from_sheet df).despesas_var_pct =
      (((pairsOf df).filter (pairMatches matchDespesasVar)).getLast?).map
        (fun p => try_float p.2 0) ∧
    (scan_inputs_from_sheet df).margem_pct =
      (((pairsOf df).filter (pairMatches matchMargem)).getLast?).map
        (fun p => try_float p.2 0) ∧
    (scan_inputs_from_sheet df).taxa_efetiva_pct =
      (((pairsOf df).filter (pairMatches matchTaxaEfetiva)).getLast?).map
        (fun p => try_float p.2 0) := by
  refine ⟨?_, ?_, ?_, ?_, ?_, ?_, ?_, ?_, ?_, ?_⟩
  · rw [scan_eq_foldl, foldl_scanStep_assign (fun d => d.produto) (pairMatches matchProduto)
      (fun p => cellAsStr p.2) scanStep_produto (pairsOf df) emptyDefaults]
    exact optOr_none _
  · rw [scan_eq_foldl, foldl_scanStep_assign (fun d => d.mpd) (pairMatches matchMpd)
      (fun p => try_float p.2 0) scanStep_mpd (pairsOf df) emptyDefaults]
    exact optOr_none _
  · rw [scan_eq_foldl, foldl_scanStep_assign (fun d => d.cif_hora) (pairMatches matchCifHora)
      (fun p => try_float p.2 0) scanStep_cif_hora (pairsOf df) emptyDefaults]
    exact optOr_none _
  · rw [scan_eq_foldl, foldl_scanStep_assign (fun d => d.mod_hora) (pairMatches matchModHora)
      (fun p => try_float p.2 0) scanStep_mod_hora (pairsOf df) emptyDefaults]
    exact optOr_none _
  · rw [scan_eq_foldl, foldl_scanStep_assign (fun d => d.tempo_min) (pairMatches matchTempoMin)
      (fun p => try_float p.2 0) scanStep_tempo_min (pairsOf df) emptyDefaults]
    exact optOr_none _
  · rw [scan_eq_foldl, foldl_scanStep_setdefault (fun d => d.impostos_pct)
      (pairMatches matchImpostos) (fun p => try_float p.2 0) scanStep_impostos (pairsOf df)
      emptyDefaults]
    rfl
  · rw [scan_eq_foldl, foldl_scanStep_assign (fun d => d.comissao_pct)
      (pairMatches matchComissao) (fun p => try_float p.2 0) scanStep_comissao (pairsOf df)
      emptyDefaults]
    exact optOr_none _
  · rw [scan_eq_foldl, foldl_scanStep_assign (fun d => d.despesas_var_pct)
      (pairMatches matchDespesasVar) (fun p => try_float p.2 0) scanStep_despesas_var
      (pairsOf df) emptyDefaults]
    exact optOr_none _
  · rw [scan_eq_foldl, foldl_scanStep_assign (fun d => d.margem_pct) (pairMatches matchMargem)
      (fun p => try_float p.2 0) scanStep_margem (pairsOf df) emptyDefaults]
    exact optOr_none _
  · rw [scan_eq_foldl, foldl_scanStep_assign (fun d => d.taxa_efetiva_pct)
      (pairMatches matchTaxaEfetiva) (fun p => try_float p.2 0) scanStep_taxa_efetiva
      (pairsOf df) emptyDefaults]
    exact optOr_none _

/-- C5: when several (label, value) pairs of the scanned sheet match
the same field, impostos_pct keeps the value of the first matching pair
(set only if still absent), while every other field ends up with the
value of the last matching pair in scan order (rows top to bottom,
columns left to right, the order of pairsOf). -/
theorem C5_first_last_match (df : List (List Cell)) :
    (scan_inputs_from_sheet df).produto =
      (((pairsOf df).filter (pairMatches matchProduto)).getLast?).map
        (fun p => cellAsStr p.2) ∧
    (scan_inputs_from_sheet df).mpd =
      (((pairsOf df).filter (pairMatches matchMpd)).getLast?).map (fun p => try_float p.2 0) ∧
    (scan_inputs_from_sheet df).cif_hora =
      (((pairsOf df).filter (pairMatches matchCifHora)).getLast?).map
        (fun p => try_float p.2 0) ∧
    (scan_inputs_from_sheet df).mod_hora =
      (((pairsOf df).filter (pairMatches matchModHora)).getLast?).map
        (fun p => try_float p.2 0) ∧
    (scan_inputs_from_sheet df).tempo_min =
      (((pairsOf df).filter (pairMatches matchTempoMin)).getLast?).map
        (fun p => try_float p.2 0) ∧
    (scan_inputs_from_sheet df).impostos_pct =
      (((pairsOf df).filter (pairMatches matchImpostos)).head?).map
        (fun p => try_float p.2 0) ∧
    (scan_inputs_from_sheet df).comissao_pct =
      (((pairsOf df).filter (pairMatches matchComissao)).getLast?).map
        (fun p => try_float p.2 0) ∧
    (scan_inputs_from_sheet df).despesas_var_pct =
      (((pairsOf df).filter (pairMatches matchDespesasVar)).getLast?).map
        (fun p => try_float p.2 0) ∧
    (scan_inputs_from_sheet df).margem_pct =
      (((pairsOf df).filter (pairMatches matchMargem)).getLast?).map
        (fun p => try_float p.2 0) ∧
    (scan_inputs_from_sheet df).taxa_efetiva_pct =
      (((pairsOf df).filter (pairMatches matchTaxaEfetiva)).getLast?).map
        (fun p => try_float p.2 0) :=
  scan_spec df

/-- C6: try_float returns the caller-supplied default on an NA cell and
on any string that fails to parse after percent-stripping and
comma-to-period replacement; strings that do parse give their numeric
value; a sheet row pairing a matéria-prima label with the number 10.5
yields mpd = 10.5 in the scanned defaults, while the string R$ 20,50
falls back to the default rather than 20.5. -/
theorem C6_try_float_behavior (d : ℚ) :
    try_float Cell.na d = d ∧
    try_float (Cell.str ("R$ 20,50")) d = d ∧
    try_float (Cell.str ("20,50")) d = 41 / 2 ∧
    try_float (Cell.str (" 12% ")) d = 12 ∧
    (scan_inputs_from_sheet [[Cell.str ("Matéria Prima:"), Cell.num (21 / 2)]]).mpd =
      some (21 / 2) := by
  refine ⟨rfl, rfl, ?_, ?_, rfl⟩
  · have h : try_float (Cell.str ("20,50")) d =
        1 * ((2050 : ℕ) : ℚ) / (10 : ℚ) ^ (2 : ℕ) := rfl
    rw [h]
    norm_num
  · have h : try_float (Cell.str (" 12% ")) d =
        1 * ((12 : ℕ) : ℚ) / (10 : ℚ) ^ (0 : ℕ) := rfl
    rw [h]
    norm_num

/-- C7: the scan is a total function of the sheet (the model returns a
DefaultsMap for every grid, mirroring the source, which has no raising
path: non-string labels are skipped and try_float catches every parse
failure); a field key matched by no (label, value) pair is absent from
the result; a row of two numbers contributes nothing; an uncoercible
matched value is stored as the zero default. -/
theorem C7_scan_total_absent (df : List (List Cell)) :
    ((∀ p ∈ pairsOf df, pairMatches matchProduto p = false) →
      (scan_inputs_from_sheet df).produto = none) ∧
    ((∀ p ∈ pairsOf df, pairMatches matchMpd p = false) →
      (scan_inputs_from_sheet df).mpd = none) ∧
    ((∀ p ∈ pairsOf df, pairMatches matchCifHora p = false) →
      (scan_inputs_from_sheet df).cif_hora = none) ∧
    ((∀ p ∈ pairsOf df, pairMatches matchModHora p = false) →
      (scan_inputs_from_sheet df).mod_hora = none) ∧
    ((∀ p ∈ pairsOf df, pairMatches matchTempoMin p = false) →
      (scan_inputs_from_sheet df).tempo_min = none) ∧
    ((∀ p ∈ pairsOf df, pairMatches matchImpostos p = false) →
      (scan_inputs_from_sheet df).impostos_pct = none) ∧
    ((∀ p ∈ pairsOf df, pairMatches matchComissao p = false) →
      (scan_inputs_from_sheet df).comissao_pct = none) ∧
    ((∀ p ∈ pairsOf df, pairMatches matchDespesasVar p = false) →
      (scan_inputs_from_sheet df).despesas_var_pct = none) ∧
    ((∀ p ∈ pairsOf df, pairMatches matchMargem p = false) →
      (scan_inputs_from_sheet df).margem_pct = none) ∧
    ((∀ p ∈ pairsOf df, pairMatches matchTaxaEfetiva p = false) →
      (scan_inputs_from_sheet df).taxa_efetiva_pct = none) ∧
    scan_inputs_from_sheet [[Cell.num 3, Cell.num 5]] = emptyDefaults ∧
    (scan_inputs_from_sheet [[Cell.str ("margem"), Cell.str ("abc")]]).margem_pct = some 0 := by
  obtain ⟨h1, h2, h3, h4, h5, h6, h7, h8, h9, h10⟩ := scan_spec df
  refine ⟨fun hall => ?_, fun hall => ?_, fun hall => ?_, fun hall => ?_, fun hall => ?_,
    fun hall => ?_, fun hall => ?_, fun hall => ?_, fun hall => ?_, fun hall => ?_, rfl, rfl⟩
  · rw [h1, List.filter_eq_nil_iff.mpr (fun p hp => by simp [hall p hp])]
    rfl
  · rw [h2, List.filter_eq_nil_iff.mpr (fun p hp => by simp [hall p hp])]
    rfl
  · rw [h3, List.filter_eq_nil_iff.mpr (fun p hp => by simp [hall p hp])]
    rfl
  · rw [h4, List.filter_eq_nil_iff.mpr (fun p hp => by simp [hall p hp])]
    rfl
  · rw [h5, List.filter_eq_nil_iff.mpr (fun p hp => by simp [hall p hp])]
    rfl
  · rw [h6, List.filter_eq_nil_iff.mpr (fun p hp => by simp [hall p hp])]
    rfl
  · rw [h7, List.filter_eq_nil_iff.mpr (fun p hp => by simp [hall p hp])]
    rfl
  · rw [h8, List.filter_eq_nil_iff.mpr (fun p hp => by simp [hall p hp])]
    rfl
  · rw [h9, List.filter_eq_nil_iff.mpr (fun p hp => by simp [hall p hp])]
    rfl
  · rw [h10, List.filter_eq_nil_iff.mpr (fun p hp => by simp [hall p hp])]
    rfl

/-- Witness for C7 on a sheet whose only label matches margem_pct: the
unmatched keys are absent. -/
theorem C7_witness :
    (scan_inputs_from_sheet [[Cell.str ("margem (%)"), Cell.num 12]]).produto = none ∧
    (scan_inputs_from_sheet [[Cell.str ("margem (%)"), Cell.num 12]]).mpd = none :=
  ⟨(C7_scan_total_absent [[Cell.str ("margem (%)"), Cell.num 12]]).1 (by decide),
    (C7_scan_total_absent [[Cell.str ("margem (%)"), Cell.num 12]]).2.1 (by decide)⟩

/-- C9: both core functions are deterministic: the outcome of
calcular_precos (including the raise/no-raise alternative and the full
breakdown) and the DefaultsMap of scan_inputs_from_sheet are uniquely
determined by the arguments; the model is a pure function like the
source, which reads no mutable state. -/
theorem C9_deterministic :
    (∀ (mpd cif_hora mod_hora tempo_min impostos comissao despesas_var margem
        taxa_efetiva : ℚ) (e1 e2 : Except String PricingResult),
      calcular_precos mpd cif_hora mod_hora tempo_min impostos comissao despesas_var margem
          taxa_efetiva = e1 →
        calcular_precos mpd cif_hora mod_hora tempo_min impostos comissao despesas_var margem
          taxa_efetiva = e2 → e1 = e2) ∧
    (∀ (df : List (List Cell)) (d1 d2 : DefaultsMap),
      scan_inputs_from_sheet df = d1 → scan_inputs_from_sheet df = d2 → d1 = d2) := by
  constructor
  · intro mpd cif_hora mod_hora tempo_min impostos comissao despesas_var margem taxa_efetiva
      e1 e2 h1 h2
    rw [← h1, ← h2]
  · intro df d1 d2 h1 h2
    rw [← h1, ← h2]

/-- Witness for C9: two evaluations at the worked example agree, and
the scan of the empty sheet is the empty map. -/
theorem C9_witness :
    (Except.ok R8 : Except String PricingResult) = Except.ok R8 ∧
    scan_inputs_from_sheet [] = emptyDefaults :=
  ⟨C9_deterministic.1 100 20 10 60 10 5 5 10 3 (Except.ok R8) (Except.ok R8) calc_R8 calc_R8,
    C9_deterministic.2 [] (scan_inputs_from_sheet []) emptyDefaults rfl rfl⟩

end Fiasini
